import Mathlib

/-!
Shallow embedding of the autocomplete argument core
(`src/slash/argument/autocomplete/autocompletable.rs`), together with the
parts of the serde_json data model that the module uses.

Modelling conventions:
* `serde_json::Value` and `serde_json::Number` are embedded as inductive
  types mirroring their tagged-union structure (`Number` internally stores
  `PosInt(u64)`, `NegInt(i64)` or `Float(f64)`).
* IEEE-754 doubles are embedded by `FloatVal`: a finite double is kept as
  its exact rational value, and the three non-finite classes are explicit
  constructors.  The rounding performed by integer-to-double and
  double-to-single conversions is not modelled (no property below depends
  on it); the conversions are kept exact.
* Machine-integer range side conditions (`u64`, `i64` payload bounds) are
  carried as hypotheses of the theorems rather than baked into the
  constructors.
-/

/-- Model of an IEEE-754 double-precision value: a finite double is
represented by its exact rational value; NaN and the two infinities are
explicit. -/
inductive FloatVal where
  | finite (q : ℚ)
  | nan
  | posInf
  | negInf
deriving DecidableEq

/-- The `value as f32` narrowing used by the f32 strategy's extraction.
Rounding to single precision is not modelled: finite values are kept
exact and the non-finite classes are preserved, which is all the claims
depend on. -/
def double2single (x : FloatVal) : FloatVal := x

/-- `serde_json::Number`: `posInt` holds a `u64` payload (`0 ≤ u < 2^64`),
`negInt` a negative `i64` payload (`-2^63 ≤ i < 0`), `float` a finite
`f64` payload. -/
inductive Number where
  | posInt (u : ℕ)
  | negInt (i : ℤ)
  | float (q : ℚ)
deriving DecidableEq

/-- `serde_json::Number::as_i64`: a `posInt` payload is returned when it
fits below `i64::MAX` (9223372036854775807), a `negInt` payload always,
a `float` payload never. -/
def Number.as_i64 : Number → Option ℤ
  | .posInt u => if u ≤ 9223372036854775807 then some (u : ℤ) else none
  | .negInt i => some i
  | .float _ => none

/-- `serde_json::Number::as_f64`: total on numbers; integer payloads are
converted (exactly, see `FloatVal`). -/
def Number.as_f64 : Number → Option FloatVal
  | .posInt u => some (.finite (u : ℚ))
  | .negInt i => some (.finite (i : ℚ))
  | .float q => some (.finite q)

/-- `serde_json::Number::from_f64`: succeeds exactly on finite doubles. -/
def Number.from_f64 : FloatVal → Option Number
  | .finite q => some (.float q)
  | .nan => none
  | .posInf => none
  | .negInf => none

/-- The `From` conversions from Rust's primitive integers into
`serde_json::Number` (used by the integer strategy's `value.into()`):
negative values become `negInt`, non-negative ones `posInt`. -/
def Number.fromInt (n : ℤ) : Number :=
  if n < 0 then .negInt n else .posInt n.toNat

/-- `serde_json::Value`, the JSON-like tagged union exchanged at the
boundary. -/
inductive Value where
  | null
  | bool (b : Bool)
  | number (n : Number)
  | string (s : String)
  | array (xs : List Value)
  | object (fields : List (String × Value))

/-- `serde_json::Value::as_str`. -/
def Value.as_str : Value → Option String
  | .string s => some s
  | _ => none

/-- `serde_json::Value::as_i64`. -/
def Value.as_i64 : Value → Option ℤ
  | .number n => n.as_i64
  | _ => none

/-- `serde_json::Value::as_f64`. -/
def Value.as_f64 : Value → Option FloatVal
  | .number n => n.as_f64
  | _ => none

/-- Whether the value carries the `Number` tag. -/
def Value.isNumber : Value → Bool
  | .number _ => true
  | _ => false

/-- Whether the value carries the `String` tag. -/
def Value.isString : Value → Bool
  | .string _ => true
  | _ => false

/-- The `SlashArgError` variants produced by this module. -/
inductive SlashArgError where
  | commandStructureMismatch (expected : String)
  | integerOutOfBounds
deriving DecidableEq

/-- A resolved `AutocompletableHack` implementation for a parameter type
whose values are modelled by `T` and whose partial input is modelled by
`P`: the pair of operations (extraction from JSON, serialization to
JSON). -/
structure Strategy (T P : Type) where
  extractPartial : Value → Except SlashArgError P
  intoJson : T → Value

/-- The `Autocompletable` trait: a type's own extraction/serialization
pair, with associated partial-input type `P`. -/
structure Autocompletable (T P : Type) where
  extractPartial : Value → Except SlashArgError P
  intoJson : T → Value

/-- `impl<T> AutocompletableHack<T> for PhantomData<T>` — the generic
string fallback.  The `ArgumentConvert + ToString` bound is modelled by
the `to_string` function `toStr`; the parse capability is never used by
this module (extraction returns the text unparsed). -/
def stringStrategy {T : Type} (toStr : T → String) : Strategy T String where
  extractPartial v :=
    match v.as_str with
    | none => .error (.commandStructureMismatch "expected string")
    | some s => .ok s
  intoJson value := .string (toStr value)

/-- An integer parameter type `T : TryFrom<i64> + Into<Number>`, modelled
by its range: for all of Rust's primitive integer types, `try_from`
succeeds exactly on `lo ≤ n ≤ hi`, and every value of `T` is an integer
in that range. -/
structure IntType where
  lo : ℤ
  hi : ℤ

/-- `impl<T: TryFrom<i64> + Into<Number>> AutocompletableHack<T> for
&PhantomData<T>` — the integer strategy. -/
def intStrategy (it : IntType) : Strategy ℤ ℤ where
  extractPartial v :=
    match v.as_i64 with
    | none => .error (.commandStructureMismatch "expected integer")
    | some n =>
        if it.lo ≤ n ∧ n ≤ it.hi then .ok n
        else .error .integerOutOfBounds
  intoJson value := .number (Number.fromInt value)

/-- `impl AutocompletableHack<f32> for &&PhantomData<f32>`: extraction
decodes the double and narrows it to single precision; serialization
widens (exactly) and falls back to `Number::from(0)` on non-finite
input. -/
def f32Strategy : Strategy FloatVal FloatVal where
  extractPartial v :=
    match v.as_f64 with
    | none => .error (.commandStructureMismatch "expected float")
    | some f => .ok (double2single f)
  intoJson value := .number ((Number.from_f64 value).getD (Number.fromInt 0))

/-- `impl AutocompletableHack<f64> for &&PhantomData<f64>`. -/
def f64Strategy : Strategy FloatVal FloatVal where
  extractPartial v :=
    match v.as_f64 with
    | none => .error (.commandStructureMismatch "expected float")
    | some f => .ok f
  intoJson value := .number ((Number.from_f64 value).getD (Number.fromInt 0))

/-- `impl<T: Autocompletable> AutocompletableHack<T> for &&PhantomData<T>`
— the composite strategy: both operations delegate verbatim to the
type's own implementation. -/
def autocompletableHack {T P : Type} (a : Autocompletable T P) : Strategy T P where
  extractPartial v := a.extractPartial v
  intoJson value := a.intoJson value

/-- The five strategies of the dispatch hierarchy. -/
inductive StrategyKind where
  | composite
  | float64
  | float32
  | integer
  | stringFallback
deriving DecidableEq

/-- The build-time capabilities of a parameter type that determine which
`AutocompletableHack` impl Rust's auto-ref method resolution selects. -/
structure TypeCaps where
  hasAutocompletable : Bool
  isF64 : Bool
  isF32 : Bool
  isInt64Convertible : Bool
  hasStringConv : Bool

/-- The strategy resolver: models the compile-time method resolution over
the `PhantomData` / `&PhantomData` / `&&PhantomData` impl hierarchy
(auto-ref specificity), in the spec's priority order
composite > f64 > f32 > integer > string fallback; `none` when no impl
applies (a compile error in the source). -/
def resolve (c : TypeCaps) : Option StrategyKind :=
  if c.hasAutocompletable then some .composite
  else if c.isF64 then some .float64
  else if c.isF32 then some .float32
  else if c.isInt64Convertible then some .integer
  else if c.hasStringConv then some .stringFallback
  else none

/-- Whether an extraction result is a kind mismatch
(`CommandStructureMismatch`). -/
def isMismatch {P : Type} : Except SlashArgError P → Bool
  | .error (.commandStructureMismatch _) => true
  | .error .integerOutOfBounds => false
  | .ok _ => false

/-- `u8` as an integer parameter type. -/
def u8Type : IntType := ⟨0, 255⟩

/-- `u64` as an integer parameter type (it satisfies both
`TryFrom<i64>` and `Into<Number>`, so the integer strategy applies). -/
def u64Type : IntType := ⟨0, 18446744073709551615⟩

/-- A concrete `Autocompletable` implementation used in witnesses: the
identity pair on `Value`. -/
def idAutocompletable : Autocompletable Value Value :=
  ⟨fun v => .ok v, fun v => v⟩

/-- Capabilities of a type implementing both `Autocompletable` and the
string parse/format capability. -/
def capsBoth : TypeCaps := ⟨true, false, false, false, true⟩

/-- Claim C1: a type with the composite (`Autocompletable`) capability
resolves to the composite strategy exclusively — never to the string
fallback — and the resolved operations are exactly the type's own
`Autocompletable` operations, with no additional validation. -/
theorem autocompletable_resolution_is_composite (c : TypeCaps)
    (h : c.hasAutocompletable = true) {T P : Type} (a : Autocompletable T P) :
    resolve c = some .composite ∧ resolve c ≠ some .stringFallback ∧
    (autocompletableHack a).extractPartial = a.extractPartial ∧
    (autocompletableHack a).intoJson = a.intoJson := by
  refine ⟨?_, ?_, rfl, rfl⟩ <;> simp [resolve, h]

/-- Witness for C1 at a concrete capability set (composite and string
capability both present) and a concrete `Autocompletable` instance. -/
theorem autocompletable_resolution_is_composite_witness :
    resolve capsBoth = some .composite ∧
    resolve capsBoth ≠ some .stringFallback ∧
    (autocompletableHack idAutocompletable).extractPartial
      = idAutocompletable.extractPartial ∧
    (autocompletableHack idAutocompletable).intoJson
      = idAutocompletable.intoJson :=
  autocompletable_resolution_is_composite capsBoth rfl idAutocompletable

/-- Counterexample to C2 as stated: `u64` is handled by the integer
strategy, and for the in-range `u64` value `2^63` the serialized number
is re-extracted as `CommandStructureMismatch`, not `Ok(2^63)` — `as_i64`
rejects `posInt` payloads above `i64::MAX`. -/
theorem int_roundtrip_cex_u64 :
    (intStrategy u64Type).extractPartial
        ((intStrategy u64Type).intoJson 9223372036854775808)
      = .error (.commandStructureMismatch "expected integer") := by
  rfl

/-- Claim C2 (amended): for every integer type handled by the integer
strategy and every value `n` in its range that is also representable as
a 64-bit signed integer, extraction of the serialization returns `n`. -/
theorem int_roundtrip_within_i64 (it : IntType) (n : ℤ)
    (hrange : it.lo ≤ n ∧ n ≤ it.hi)
    (h64 : -9223372036854775808 ≤ n ∧ n ≤ 9223372036854775807) :
    (intStrategy it).extractPartial ((intStrategy it).intoJson n) = .ok n := by
  by_cases hneg : n < 0
  · simp [intStrategy, Number.fromInt, hneg, Value.as_i64, Number.as_i64,
      hrange.1, hrange.2]
  · have h1 : n.toNat ≤ 9223372036854775807 := by omega
    have h2 : (n.toNat : ℤ) = n := by omega
    simp [intStrategy, Number.fromInt, hneg, Value.as_i64, Number.as_i64,
      h1, h2, hrange.1, hrange.2]

/-- Witness for the amended C2 at `u8` and `n = 5`. -/
theorem int_roundtrip_within_i64_witness :
    (intStrategy u8Type).extractPartial ((intStrategy u8Type).intoJson 5)
      = .ok 5 :=
  int_roundtrip_within_i64 u8Type 5 (by decide) (by decide)

/-- Counterexample to C3 as stated: for the integer strategy on `u64`
and the candidate `2^63`, feeding the serialized candidate back through
extraction does fail with a kind (tag) mismatch. -/
theorem weak_roundtrip_cex_u64 :
    isMismatch ((intStrategy u64Type).extractPartial
        ((intStrategy u64Type).intoJson 9223372036854775808)) = true := by
  decide

/-- Claim C3 (amended): re-extraction of a serialized candidate never
yields `CommandStructureMismatch` for the string fallback and both float
strategies unconditionally; for the integer strategy whenever the
candidate is representable as a 64-bit signed integer; and for the
composite strategy — whose operations are the type's own, delegated
verbatim — whenever the type's own pair has that property. -/
theorem weak_roundtrip_amended {T U P : Type} (toStr : T → String) (t : T)
    (it : IntType) (n : ℤ)
    (h64 : -9223372036854775808 ≤ n ∧ n ≤ 9223372036854775807)
    (x y : FloatVal) (a : Autocompletable U P) (u : U)
    (ha : isMismatch (a.extractPartial (a.intoJson u)) = false) :
    isMismatch ((stringStrategy toStr).extractPartial
        ((stringStrategy toStr).intoJson t)) = false ∧
    isMismatch ((intStrategy it).extractPartial
        ((intStrategy it).intoJson n)) = false ∧
    isMismatch (f32Strategy.extractPartial (f32Strategy.intoJson x)) = false ∧
    isMismatch (f64Strategy.extractPartial (f64Strategy.intoJson y)) = false ∧
    isMismatch ((autocompletableHack a).extractPartial
        ((autocompletableHack a).intoJson u)) = false := by
  refine ⟨rfl, ?_, ?_, ?_, ha⟩
  · by_cases hneg : n < 0
    · simp only [intStrategy, Number.fromInt, if_pos hneg, Value.as_i64,
        Number.as_i64]
      split <;> rfl
    · have h1 : n.toNat ≤ 9223372036854775807 := by omega
      simp only [intStrategy, Number.fromInt, if_neg hneg, Value.as_i64,
        Number.as_i64, if_pos h1]
      split <;> rfl
  · cases x <;> rfl
  · cases y <;> rfl

/-- Witness for the amended C3 at concrete inputs for each strategy. -/
theorem weak_roundtrip_amended_witness :
    isMismatch ((stringStrategy (fun n : ℤ => toString n)).extractPartial
        ((stringStrategy (fun n : ℤ => toString n)).intoJson 3)) = false ∧
    isMismatch ((intStrategy u8Type).extractPartial
        ((intStrategy u8Type).intoJson 5)) = false ∧
    isMismatch (f32Strategy.extractPartial (f32Strategy.intoJson .nan)) = false ∧
    isMismatch (f64Strategy.extractPartial
        (f64Strategy.intoJson (.finite 1))) = false ∧
    isMismatch ((autocompletableHack idAutocompletable).extractPartial
        ((autocompletableHack idAutocompletable).intoJson .null)) = false :=
  weak_roundtrip_amended (fun n : ℤ => toString n) 3 u8Type 5 (by decide)
    .nan (.finite 1) idAutocompletable .null rfl

/-- Claim C4: for the integer strategy, an input number representable as
a 64-bit signed integer but outside the target type's own range fails
with exactly `IntegerOutOfBounds`. -/
theorem int_extract_out_of_range (it : IntType) (num : Number) (n : ℤ)
    (hi64 : num.as_i64 = some n) (hout : n < it.lo ∨ it.hi < n) :
    (intStrategy it).extractPartial (.number num)
      = .error .integerOutOfBounds := by
  have hcond : ¬ (it.lo ≤ n ∧ n ≤ it.hi) := by omega
  simp [intStrategy, Value.as_i64, hi64, hcond]

/-- Witness for C4 at the spec's example: `u8` target, input
`Number(1000)`. -/
theorem int_extract_out_of_range_witness :
    (intStrategy u8Type).extractPartial (.number (.posInt 1000))
      = .error .integerOutOfBounds :=
  int_extract_out_of_range u8Type (.posInt 1000) 1000 (by decide) (by decide)

/-- Claim C5: when the input's tag does not match what the resolved
strategy expects, extraction fails with `CommandStructureMismatch`
carrying the strategy's expected-kind text: "expected integer" for the
integer strategy, "expected float" for both float strategies, and
"expected string" for the string fallback. -/
theorem tag_mismatch_errors {T : Type} (toStr : T → String) (it : IntType)
    (v : Value) :
    (v.isNumber = false →
      (intStrategy it).extractPartial v
          = .error (.commandStructureMismatch "expected integer") ∧
      f32Strategy.extractPartial v
          = .error (.commandStructureMismatch "expected float") ∧
      f64Strategy.extractPartial v
          = .error (.commandStructureMismatch "expected float")) ∧
    (v.isString = false →
      (stringStrategy toStr).extractPartial v
          = .error (.commandStructureMismatch "expected string")) := by
  cases v <;>
    simp [Value.isNumber, Value.isString, intStrategy, f32Strategy,
      f64Strategy, stringStrategy, Value.as_i64, Value.as_f64, Value.as_str]

/-- Witness for C5: the Number-expecting integer strategy on
`String("x")`, and the string fallback on a number. -/
theorem tag_mismatch_errors_witness :
    (intStrategy u8Type).extractPartial (.string "x")
        = .error (.commandStructureMismatch "expected integer") ∧
    (stringStrategy (fun n : ℤ => toString n)).extractPartial
        (.number (.posInt 3))
        = .error (.commandStructureMismatch "expected string") :=
  ⟨((tag_mismatch_errors (fun n : ℤ => toString n) u8Type (.string "x")).1
      rfl).1,
   (tag_mismatch_errors (fun n : ℤ => toString n) u8Type
      (.number (.posInt 3))).2 rfl⟩

/-- Claim C6: both float strategies serialize every non-finite value
(NaN, positive infinity, negative infinity) to exactly `Number(0)` —
`Number::from_f64` declines and the fallback `Number::from(0)` is
used. -/
theorem nonfinite_serializes_to_zero :
    f32Strategy.intoJson .nan = .number (.posInt 0) ∧
    f32Strategy.intoJson .posInf = .number (.posInt 0) ∧
    f32Strategy.intoJson .negInf = .number (.posInt 0) ∧
    f64Strategy.intoJson .nan = .number (.posInt 0) ∧
    f64Strategy.intoJson .posInf = .number (.posInt 0) ∧
    f64Strategy.intoJson .negInf = .number (.posInt 0) :=
  ⟨rfl, rfl, rfl, rfl, rfl, rfl⟩

/-- Claim C7: for the double-precision strategy, extraction of
`Number(3.14)` yields `3.14` and serializing `3.14` yields
`Number(3.14)` (the finite double written `3.14` is represented by its
rational value `157/50`; finite doubles round-trip exactly). -/
theorem f64_finite_roundtrip_314 :
    f64Strategy.extractPartial (.number (.float (157 / 50)))
        = .ok (.finite (157 / 50)) ∧
    f64Strategy.intoJson (.finite (157 / 50))
        = .number (.float (157 / 50)) :=
  ⟨rfl, rfl⟩

/-- Claim C8: the string fallback returns the contents of every
`String`-tagged input unchanged and unparsed — extraction never consults
the parse capability. -/
theorem string_extract_returns_text {T : Type} (toStr : T → String)
    (s : String) :
    (stringStrategy toStr).extractPartial (.string s) = .ok s :=
  rfl

/-- Claim C9: for the integer strategy, a `Number`-tagged input whose
payload is not representable as a 64-bit signed integer (a float payload,
or a `posInt` payload above `i64::MAX`) fails with
`CommandStructureMismatch ("expected integer")`, not
`IntegerOutOfBounds`. -/
theorem int_extract_non_i64_number_mismatch (it : IntType) (num : Number)
    (h : num.as_i64 = none) :
    (intStrategy it).extractPartial (.number num)
      = .error (.commandStructureMismatch "expected integer") := by
  simp [intStrategy, Value.as_i64, h]

/-- Witness for C9 at the fractional input `Number(3.5)` against `u8`. -/
theorem int_extract_non_i64_number_mismatch_witness :
    (intStrategy u8Type).extractPartial (.number (.float (7 / 2)))
      = .error (.commandStructureMismatch "expected integer") :=
  int_extract_non_i64_number_mismatch u8Type (.float (7 / 2)) rfl

/-- Claim C10: both float strategies accept integer-valued `Number`
inputs: for every integer payload, extraction succeeds with the payload
converted to the target floating-point type. -/
theorem float_extract_accepts_integer_numbers (u : ℕ) (i : ℤ) :
    f32Strategy.extractPartial (.number (.posInt u)) = .ok (.finite (u : ℚ)) ∧
    f32Strategy.extractPartial (.number (.negInt i)) = .ok (.finite (i : ℚ)) ∧
    f64Strategy.extractPartial (.number (.posInt u)) = .ok (.finite (u : ℚ)) ∧
    f64Strategy.extractPartial (.number (.negInt i)) = .ok (.finite (i : ℚ)) :=
  ⟨rfl, rfl, rfl, rfl⟩
